import Mathlib

/-!
# Verification of the file-storage and access-control subsystem

Shallow embedding of the upload middleware (`backend/middleware/upload.js`),
the file controller (`fileController.js`) and the user controller
(`userController.js`) of the messaging platform backend, together with
proofs about the properties of the upload → validate → store → authorize →
serve → delete pipeline.

JavaScript translation conventions:
* machine integers and object ids are `Nat`;
* JS strings are Lean `String`s; `Buffer.from(s,'utf8').length` is
  `String.utf8ByteSize`;
* fallible code returns `Except`; `null`/`undefined`-able values are `Option`;
* database lookups (`findOne`/`findById`) are `List.find?` over an explicit
  in-memory database record;
* network side effects (S3 calls) are recorded in an explicit effect list,
  and a fallible S3 call is parameterized by an `Option String` holding the
  error message it throws (`none` = the call succeeds).
-/

namespace Upload
/-! ## `backend/middleware/upload.js` -/

/-- MIME type → permitted extension list (`ALLOWED_TYPES`). -/
def ALLOWED_TYPES : List (String × List String) :=
  [ ("image/jpeg", [".jpg", ".jpeg"]),
    ("image/png", [".png"]),
    ("image/gif", [".gif"]),
    ("image/webp", [".webp"]),
    ("video/mp4", [".mp4"]),
    ("video/webm", [".webm"]),
    ("video/quicktime", [".mov"]),
    ("audio/mpeg", [".mp3"]),
    ("audio/wav", [".wav"]),
    ("audio/ogg", [".ogg"]),
    ("application/pdf", [".pdf"]),
    ("application/msword", [".doc"]),
    ("application/vnd.openxmlformats-officedocument.wordprocessingml.document", [".docx"]) ]

/-- Per-category byte-size limits (`FILE_SIZE_LIMITS`). -/
def FILE_SIZE_LIMITS : List (String × Nat) :=
  [ ("image", 10 * 1024 * 1024),
    ("video", 50 * 1024 * 1024),
    ("audio", 20 * 1024 * 1024),
    ("document", 20 * 1024 * 1024) ]

/-- `multer` absolute upload cap: `limits.fileSize = 50 * 1024 * 1024`. -/
def MULTER_FILE_SIZE : Nat := 50 * 1024 * 1024

/-- `mimetype.split('/')[0]`: everything before the first `/` (the whole
string when there is none). -/
def mimeMajor (mimetype : String) : String :=
  String.mk (mimetype.toList.takeWhile (fun c => c ≠ '/'))

/-- `s.toLowerCase()` on the ASCII range. -/
def lowerStr (s : String) : String := String.mk (s.toList.map Char.toLower)

/-- `getFileType(mimetype)`: user-facing Korean category name derived from
the first `/`-separated component of the MIME type. -/
def getFileType (mimetype : String) : String :=
  let type := mimeMajor mimetype
  if type = "image" then "이미지"
  else if type = "video" then "동영상"
  else if type = "audio" then "오디오"
  else if type = "application" then "문서"
  else "파일"

/-- Model of Node `path.extname(s)` (restricted to the basename after the
last `/`): the suffix starting at the last `.`, empty when there is no dot
or the only dot is the leading character of the basename. -/
def extnameStr (s : String) : String :=
  let b := (s.toList.reverse.takeWhile (fun c => c ≠ '/')).reverse
  let revTail := b.reverse.takeWhile (fun c => c ≠ '.')
  if b.length ≤ revTail.length + 1 then ""
  else String.mk ('.' :: revTail.reverse)

/-- `validateFileSize(file)`: looks the category limit up by the first MIME
component, falling back to the document limit, and throws a category-named
message reporting the limit floor-divided to whole megabytes when the size
exceeds it. -/
def validateFileSize (mimetype : String) (size : Nat) : Except String Unit :=
  let type := mimeMajor mimetype
  let limit := (FILE_SIZE_LIMITS.lookup type).getD (20 * 1024 * 1024)
  if size > limit then
    .error (getFileType mimetype ++ " 파일은 " ++ toString (limit / 1024 / 1024)
      ++ "MB를 초과할 수 없습니다.")
  else .ok ()

/-- Result of multer's `fileFilter` callback: `cb(null, true)` versus
`cb(new Error(msg), false)`. -/
inductive FilterResult where
  | accepted : FilterResult
  | rejected (msg : String) : FilterResult
  deriving DecidableEq, Repr

/-- `fileFilter(req, file, cb)`.  The latin1→UTF-8 re-decode of
`file.originalname` is modelled as the identity on the already-canonical
name.  Checks, in source order: MIME type in the allow-list, canonical name
at most 255 UTF-8 bytes, lower-cased extension permitted for the declared
MIME type. -/
def fileFilter (mimetype originalname : String) : FilterResult :=
  match ALLOWED_TYPES.lookup mimetype with
  | none => .rejected ("지원하지 않는 " ++ getFileType mimetype ++ " 형식입니다.")
  | some exts =>
    if originalname.utf8ByteSize > 255 then .rejected "파일명이 너무 깁니다."
    else
      let ext := lowerStr (extnameStr originalname)
      if exts.contains ext then .accepted
      else .rejected (getFileType mimetype ++ " 확장자가 올바르지 않습니다.")

/-- `Object.values(ALLOWED_TYPES).flat()` in the multer-s3 key callback. -/
def allowedExtensions : List String := (ALLOWED_TYPES.map Prod.snd).flatten

/-- Lower-case hex digit of a nibble, as produced by
`Buffer.toString('hex')`. -/
def hexChar (n : Nat) : Char :=
  if n < 10 then Char.ofNat (48 + n) else Char.ofNat (87 + n)

/-- One byte rendered as two lower-case hex characters. -/
def byteToHex (b : Nat) : List Char := [hexChar (b / 16), hexChar (b % 16)]

/-- `crypto.randomBytes(n).toString('hex')` on an explicit byte list. -/
def bytesToHex (bs : List Nat) : String := String.mk (bs.map byteToHex).flatten

/-- The multer-s3 `key` callback: canonicalize the original name, build
`timestamp_randomhex` plus the lower-cased extension, reject when the
extension is not in the flattened allow-list, and otherwise produce the key
under the fixed `uploads/` root.  `timestamp` is `Date.now()` and
`randomBytes` the 8 bytes drawn by `crypto.randomBytes(8)`. -/
def s3Key (originalname : String) (timestamp : Nat) (randomBytes : List Nat) :
    Except String String :=
  let ext := lowerStr (extnameStr originalname)
  let randomString := bytesToHex randomBytes
  let filename := toString timestamp ++ "_" ++ randomString ++ ext
  if allowedExtensions.contains ext then .ok ("uploads/" ++ filename)
  else .error "지원하지 않는 파일 확장자입니다."

/-- `isPathSafe(key)`: `key.startsWith('uploads/')` — the key must begin
with the fixed safe root. -/
def isPathSafe (key : String) : Bool := "uploads/".toList.isPrefixOf key.toList

/-- What a run of `deleteFromS3` exposes: the value the caller observes
(the error, if any, that escapes the function), whether an S3 delete
request was sent, and the message logged by the catch block. -/
structure S3DeleteRun where
  result : Except String Unit
  storeCalled : Bool
  loggedError : Option String
  deriving Repr

/-- `deleteFromS3(key)`: throw inside the try when the key fails
`isPathSafe`, otherwise send the S3 `DeleteObjectCommand`; every error —
the unsafe-path throw or a failure of the send itself (`storeErr`) — is
caught and logged, so the function always returns normally. -/
def deleteFromS3 (key : String) (storeErr : Option String) : S3DeleteRun :=
  if isPathSafe key then
    match storeErr with
    | none => ⟨.ok (), true, none⟩
    | some m => ⟨.ok (), true, some ("S3 파일 삭제 실패: " ++ m)⟩
  else ⟨.ok (), false, some "S3 파일 삭제 실패: 안전하지 않은 S3 경로입니다."⟩

end Upload

namespace FileCtrl
/-! ## `fileController.js` -/

/-- A `File` catalog record (the Attachment entity). -/
structure FileRec where
  id : Nat
  filename : String
  originalname : String
  mimetype : String
  size : Nat
  user : Nat
  path : String
  url : String
  deriving DecidableEq, Repr

/-- A `Message` record: its room and the attachment it references. -/
structure MessageRec where
  id : Nat
  room : Nat
  file : Nat
  deriving DecidableEq, Repr

/-- A `Room` record with its participant set. -/
structure RoomRec where
  id : Nat
  participants : List Nat
  deriving DecidableEq, Repr

/-- The catalog store the controllers query. -/
structure DB where
  files : List FileRec
  messages : List MessageRec
  rooms : List RoomRec
  deriving DecidableEq, Repr

/-- `File.findOne({ filename })`. -/
def findFileByFilename (db : DB) (fn : String) : Option FileRec :=
  db.files.find? (fun f => f.filename == fn)

/-- `Message.findOne({ file: file._id })`. -/
def findMessageByFile (db : DB) (fid : Nat) : Option MessageRec :=
  db.messages.find? (fun m => m.file == fid)

/-- `Room.findOne({ _id: message.room, participants: req.user.id })`. -/
def findRoomWithParticipant (db : DB) (rid uid : Nat) : Option RoomRec :=
  db.rooms.find? (fun r => r.id == rid && r.participants.contains uid)

/-- `File.findById(req.params.id)`. -/
def findFileById (db : DB) (fid : Nat) : Option FileRec :=
  db.files.find? (fun f => f.id == fid)

/-- `file.deleteOne()`: remove the catalog record. -/
def removeFile (db : DB) (fid : Nat) : DB :=
  { db with files := db.files.filter (fun f => f.id ≠ fid) }

/-- The parts of an authenticated download/view request the resolver reads:
`req.params.filename`, the auth token and session id (header or query), and
the authenticated requester `req.user.id`. -/
structure FileRequest where
  filename : Option String
  token : Option String
  sessionId : Option String
  userId : Nat
  deriving Repr

/-- JS truthiness of an optional string (`undefined` and `''` are falsy). -/
def jsTruthy (o : Option String) : Bool :=
  match o with
  | none => false
  | some s => s ≠ ""

/-- `getFileFromRequest(req)`: resolve filename → credentials → attachment
→ owning message → room containing the requester, throwing a distinct
error message at each missing link. -/
def getFileFromRequest (db : DB) (req : FileRequest) : Except String FileRec :=
  if ¬ jsTruthy req.filename then .error "Invalid filename"
  else if ¬ (jsTruthy req.token ∧ jsTruthy req.sessionId) then
    .error "Authentication required"
  else
    match findFileByFilename db (req.filename.getD "") with
    | none => .error "File not found in database"
    | some file =>
      match findMessageByFile db file.id with
      | none => .error "File message not found"
      | some msg =>
        match findRoomWithParticipant db msg.room req.userId with
        | none => .error "Unauthorized access"
        | some _ => .ok file

/-- `handleFileError(error, res)`: map an internal error message to the
HTTP status and fixed human message of the response; unknown messages get
the defensive 500 default. -/
def handleFileError (emsg : String) : Nat × String :=
  if emsg = "Invalid filename" then (400, "잘못된 파일명입니다.")
  else if emsg = "Authentication required" then (401, "인증이 필요합니다.")
  else if emsg = "Invalid file path" then (400, "잘못된 파일 경로입니다.")
  else if emsg = "File not found in database" then (404, "파일을 찾을 수 없습니다.")
  else if emsg = "File message not found" then (404, "파일 메시지를 찾을 수 없습니다.")
  else if emsg = "Unauthorized access" then (403, "파일에 접근할 권한이 없습니다.")
  else if emsg = "ENOENT" then (404, "파일을 찾을 수 없습니다.")
  else (500, "파일 처리 중 오류가 발생했습니다.")

/-- A network call to the object store. -/
inductive StoreEffect where
  | presignGet (key : String) : StoreEffect
  | deleteObj (key : String) : StoreEffect
  deriving DecidableEq, Repr

/-- Abstract model of `getSignedUrl` for a `GetObjectCommand` on a key. -/
def signedGetUrl (key : String) : String := "signed:" ++ key

/-- A download/view response: a redirect to a signed URL, or an error
body `{ success: false, message }`. -/
inductive Response where
  | redirect (url : String) : Response
  | errorResp (status : Nat) (message : String) : Response
  deriving DecidableEq, Repr

/-- `downloadFile(req, res)`: resolve through `getFileFromRequest`; on
success presign a 60-second GET URL for `file.path` and redirect; on error
respond via `handleFileError`.  The second component lists the store calls
made. -/
def downloadFile (db : DB) (req : FileRequest) : Response × List StoreEffect :=
  match getFileFromRequest db req with
  | .ok file => (.redirect (signedGetUrl file.path), [.presignGet file.path])
  | .error emsg =>
    let (st, m) := handleFileError emsg
    (.errorResp st m, [])

/-- Modelled from the spec: `file.isPreviewable()` is a method of the
`File` model (`models/File.js`), which is not among the provided sources.
Per the spec, only image types and a narrow set of inline-viewable
document types (PDF) qualify for preview; a `.docx` does not. -/
def isPreviewable (file : FileRec) : Bool :=
  Upload.mimeMajor file.mimetype == "image" || file.mimetype == "application/pdf"

/-- `viewFile(req, res)`: resolve through `getFileFromRequest`; refuse with
the fixed 415 body when the file is not previewable; otherwise presign a
60-second GET URL for `file.path` (no forced disposition) and redirect; on
a resolver error respond via `handleFileError`. -/
def viewFile (db : DB) (req : FileRequest) : Response × List StoreEffect :=
  match getFileFromRequest db req with
  | .ok file =>
    if ¬ isPreviewable file then
      (.errorResp 415 "미리보기를 지원하지 않는 파일 형식입니다.", [])
    else
      (.redirect (signedGetUrl file.path), [.presignGet file.path])
  | .error emsg =>
    let (st, m) := handleFileError emsg
    (.errorResp st m, [])

/-- The fixed human messages of `handleFileError`'s table, default
included. -/
def fixedFileErrorMessages : List String :=
  ["잘못된 파일명입니다.", "인증이 필요합니다.", "잘못된 파일 경로입니다.",
    "파일을 찾을 수 없습니다.", "파일 메시지를 찾을 수 없습니다.",
    "파일에 접근할 권한이 없습니다.", "파일 처리 중 오류가 발생했습니다."]

/-- Body of a JSON response of the upload/delete handlers: the success
flag, the human message, and the optional `error` field carrying a raw
internal error message. -/
structure JsonBody where
  success : Bool
  message : String
  error : Option String := none
  deriving DecidableEq, Repr

/-- The multer-s3 upload product the controller reads off `req.file`. -/
structure UploadedFile where
  key : String
  location : String
  originalname : String
  mimetype : String
  size : Nat
  deriving Repr

/-- `uploadFile(req, res)` reduced to its response: 400 when no file is
attached, 200 with the view-safe projection on success, and — when the
catalog save throws `saveErr` — a 500 body whose `error` field carries the
raw internal error message. -/
def uploadFile (reqFile : Option UploadedFile) (saveErr : Option String) :
    Nat × JsonBody :=
  match reqFile with
  | none => (400, { success := false, message := "파일이 선택되지 않았습니다." })
  | some _ =>
    match saveErr with
    | some m =>
      (500, { success := false, message := "파일 업로드 중 오류가 발생했습니다.",
              error := some m })
    | none => (200, { success := true, message := "파일 업로드 성공" })

/-- Outcome of `deleteFile(req, res)`: the HTTP status, the body, the store
calls made, and the catalog store after the handler ran. -/
structure DeleteRun where
  status : Nat
  body : JsonBody
  effects : List StoreEffect
  db : DB
  deriving Repr

/-- `deleteFile(req, res)`: 404 when the attachment is absent, 403 when the
requester is not the owner; otherwise send the S3 delete and, only if it
succeeds, remove the catalog record — a store failure (`storeErr`) is
caught by the outer catch, which answers 500 with the raw error message
before `file.deleteOne()` runs. -/
def deleteFile (db : DB) (fid uid : Nat) (storeErr : Option String) : DeleteRun :=
  match findFileById db fid with
  | none => ⟨404, { success := false, message := "파일을 찾을 수 없습니다." }, [], db⟩
  | some file =>
    if file.user ≠ uid then
      ⟨403, { success := false, message := "파일을 삭제할 권한이 없습니다." }, [], db⟩
    else
      match storeErr with
      | some m =>
        ⟨500, { success := false, message := "파일 삭제 중 오류가 발생했습니다.",
                error := some m }, [.deleteObj file.path], db⟩
      | none =>
        ⟨200, { success := true, message := "파일이 삭제되었습니다." },
          [.deleteObj file.path], removeFile db fid⟩

end FileCtrl

namespace UserCtrl
/-! ## `userController.js` (profile image and account flows) -/

/-- A `User` record; an empty `profileImage` stands for "no image". -/
structure UserRec where
  id : Nat
  name : String
  profileImage : String
  deriving DecidableEq, Repr

/-- `User.findById(userId)`. -/
def findUserById (users : List UserRec) (uid : Nat) : Option UserRec :=
  users.find? (fun u => u.id == uid)

/-- The suffix after the last occurrence of `marker` in `cs`, when any. -/
def suffixAfterLastMarker (cs marker : List Char) : Option (List Char) :=
  match cs with
  | [] => none
  | _ :: rest =>
    match suffixAfterLastMarker rest marker with
    | some suffix => some suffix
    | none => if marker.isPrefixOf cs then some (cs.drop marker.length) else none

/-- `url.replace(/^.*\/uploads\//, 'uploads/')`: the greedy `.*` makes the
match run through the LAST `/uploads/` occurrence; when the pattern does
not match, the string is returned unchanged. -/
def profileImageKey (url : String) : String :=
  match suffixAfterLastMarker url.toList "/uploads/".toList with
  | some suffix => "uploads/" ++ String.mk suffix
  | none => url

/-- Outcome of a user-controller handler: status, body, S3 delete calls
made, and the user table afterwards. -/
structure UserRun where
  status : Nat
  body : FileCtrl.JsonBody
  effects : List FileCtrl.StoreEffect
  users : List UserRec
  deriving Repr

/-- `uploadProfileImage(req, res)` (profile-image replacement): refuse with
400 when `req.body.profileImage` is JS-falsy (absent or the empty string);
otherwise, when the user has an existing image, attempt the S3 delete of
its derived key inside an inner try whose catch only warns — `storeFails`
says whether that send throws; then overwrite `user.profileImage` with the
new URL and save, answering 200 regardless of the store-delete outcome. -/
def uploadProfileImage (users : List UserRec) (uid : Nat)
    (profileImage : Option String) (bucket : String) (storeFails : Bool) : UserRun :=
  if ¬ FileCtrl.jsTruthy profileImage then
    ⟨400, { success := false, message := "이미지 URL 또는 파일 키가 누락되었습니다." },
      [], users⟩
  else
    let img := profileImage.getD ""
    match findUserById users uid with
    | none =>
      ⟨404, { success := false, message := "사용자를 찾을 수 없습니다." }, [], users⟩
    | some user =>
      let effects : List FileCtrl.StoreEffect :=
        if user.profileImage ≠ "" then
          [.deleteObj (profileImageKey user.profileImage)]
        else []
      let newUrl := "https://" ++ bucket ++ ".s3.ap-northeast-2.amazonaws.com/" ++ img
      let users' := users.map (fun u =>
        if u.id = uid then { u with profileImage := newUrl } else u)
      ⟨200, { success := true, message := "프로필 이미지가 저장되었습니다." },
        effects, users'⟩

/-- `deleteProfileImage(req, res)`: when the user has an image, attempt the
S3 delete inside an inner try whose catch only logs, then clear
`user.profileImage` and save; answer 200 regardless of the store-delete
outcome (`storeFails`). -/
def deleteProfileImage (users : List UserRec) (uid : Nat) (storeFails : Bool) :
    UserRun :=
  match findUserById users uid with
  | none =>
    ⟨404, { success := false, message := "사용자를 찾을 수 없습니다." }, [], users⟩
  | some user =>
    if user.profileImage ≠ "" then
      let users' := users.map (fun u =>
        if u.id = uid then { u with profileImage := "" } else u)
      ⟨200, { success := true, message := "프로필 이미지가 삭제되었습니다." },
        [.deleteObj (profileImageKey user.profileImage)], users'⟩
    else
      ⟨200, { success := true, message := "프로필 이미지가 삭제되었습니다." }, [], users⟩

/-- `deleteAccount(req, res)`: when the user has a profile image, attempt
the S3 delete inside an inner try whose catch only logs (`storeFails` says
whether the send throws), then delete the user record and answer 200
regardless of the store-delete outcome. -/
def deleteAccount (users : List UserRec) (uid : Nat) (storeFails : Bool) : UserRun :=
  match findUserById users uid with
  | none =>
    ⟨404, { success := false, message := "사용자를 찾을 수 없습니다." }, [], users⟩
  | some user =>
    let effects : List FileCtrl.StoreEffect :=
      if user.profileImage ≠ "" then
        [.deleteObj (profileImageKey user.profileImage)]
      else []
    ⟨200, { success := true, message := "회원 탈퇴가 완료되었습니다." },
      effects, users.filter (fun u => u.id ≠ uid)⟩

end UserCtrl

namespace Pipeline
/-! ## Size policy as applied to an upload -/

/-- How an upload is rejected for size: multer's absolute `LIMIT_FILE_SIZE`
cap (413, "파일 크기는 50MB를 초과할 수 없습니다."), or the per-category
message thrown by `validateFileSize`. -/
inductive SizeReject where
  | absoluteCap : SizeReject
  | category (msg : String) : SizeReject
  deriving DecidableEq, Repr

/-- Modelled from the spec: the upload route wiring that applies
`validateFileSize` to an incoming upload is not among the provided sources
(only the middleware defining and exporting it is), and the spec states
that the per-category limit and the absolute ceiling both apply, the more
restrictive governing.  Multer's streaming `fileSize` cap fires first,
then the per-category check runs. -/
def uploadSizeCheck (mimetype : String) (size : Nat) : Except SizeReject Unit :=
  if size > Upload.MULTER_FILE_SIZE then .error .absoluteCap
  else
    match Upload.validateFileSize mimetype size with
    | .error m => .error (.category m)
    | .ok () => .ok ()

/-- The per-category byte limit `validateFileSize` enforces for a MIME
type: lookup by the first MIME component with the document fallback. -/
def categoryLimit (mimetype : String) : Nat :=
  (Upload.FILE_SIZE_LIMITS.lookup (Upload.mimeMajor mimetype)).getD (20 * 1024 * 1024)

end Pipeline

namespace Fixtures
/-! ## Concrete fixtures for closed-instance checks -/

/-- A catalog attachment whose storage key sits under the safe root. -/
def file1 : FileCtrl.FileRec :=
  { id := 1, filename := "1700000000000_00112233aabbccdd.png",
    originalname := "photo.png", mimetype := "image/png", size := 2048,
    user := 2, path := "uploads/1700000000000_00112233aabbccdd.png",
    url := "https://b.s3.ap-northeast-2.amazonaws.com/uploads/1700000000000_00112233aabbccdd.png" }

/-- The same attachment with a storage key that escaped the safe root. -/
def evilFile : FileCtrl.FileRec := { file1 with path := "secret/passwd.png" }

/-- The message owning `file1`, in room 100. -/
def msg1 : FileCtrl.MessageRec := { id := 10, room := 100, file := 1 }

/-- Room 100 with participants 2 and 3. -/
def room1 : FileCtrl.RoomRec := { id := 100, participants := [2, 3] }

/-- A fully linked catalog: `file1` ← `msg1` ← `room1`. -/
def db1 : FileCtrl.DB := { files := [file1], messages := [msg1], rooms := [room1] }

/-- `db1` with the attachment whose key escaped the safe root. -/
def evilDB : FileCtrl.DB := { db1 with files := [evilFile] }

/-- The same attachment reinterpreted as a non-previewable Word document. -/
def docFile : FileCtrl.FileRec :=
  { file1 with mimetype :=
      "application/vnd.openxmlformats-officedocument.wordprocessingml.document" }

/-- `db1` with the non-previewable attachment. -/
def docDB : FileCtrl.DB := { db1 with files := [docFile] }

/-- A request by participant 3 with both credentials present. -/
def okReq : FileCtrl.FileRequest :=
  { filename := some "1700000000000_00112233aabbccdd.png",
    token := some "tok", sessionId := some "sess", userId := 3 }

/-- The multer-s3 product of an accepted upload. -/
def uploaded1 : FileCtrl.UploadedFile :=
  { key := "uploads/1700000000000_00112233aabbccdd.png",
    location := "https://b.s3.ap-northeast-2.amazonaws.com/uploads/1700000000000_00112233aabbccdd.png",
    originalname := "photo.png", mimetype := "image/png", size := 2048 }

/-- A user owning a profile image stored under the safe root. -/
def user1 : UserCtrl.UserRec :=
  { id := 7, name := "u",
    profileImage := "https://b.s3.ap-northeast-2.amazonaws.com/uploads/p.png" }

/-- A one-row user table. -/
def users1 : List UserCtrl.UserRec := [user1]

end Fixtures

/-- C10: `deleteFromS3` never propagates an error to its caller: for every
key, whether the key fails the safe-prefix check or the store delete itself
fails, the error is caught and logged and the function returns normally;
when the key fails the prefix check no store call is made, and the caller
observes the same normal return as in every other case. -/
theorem deleteFromS3_never_propagates (key : String) (storeErr : Option String) :
    (Upload.deleteFromS3 key storeErr).result = .ok () ∧
    (Upload.isPathSafe key = false →
      (Upload.deleteFromS3 key storeErr).storeCalled = false) := by
  unfold Upload.deleteFromS3
  constructor
  · split
    · cases storeErr <;> rfl
    · rfl
  · intro h
    simp [h]

/-- Witness for C10: an unsafe key with a failing store still returns
normally, and no store call is made. -/
theorem deleteFromS3_never_propagates_witness :
    (Upload.deleteFromS3 "etc/passwd" (some "boom")).result = .ok () ∧
    (Upload.deleteFromS3 "etc/passwd" (some "boom")).storeCalled = false :=
  ⟨(deleteFromS3_never_propagates "etc/passwd" (some "boom")).1,
    (deleteFromS3_never_propagates "etc/passwd" (some "boom")).2 (by decide)⟩

/-- C9: when the attachment exists but the requester is not its owner,
`deleteFile` answers 403 with the ownership message, makes no store call,
and leaves the catalog unchanged. -/
theorem deleteFile_nonowner_frame (db : FileCtrl.DB) (fid uid : Nat)
    (file : FileCtrl.FileRec) (storeErr : Option String)
    (hfind : FileCtrl.findFileById db fid = some file)
    (hown : file.user ≠ uid) :
    FileCtrl.deleteFile db fid uid storeErr =
      ⟨403, { success := false, message := "파일을 삭제할 권한이 없습니다." }, [], db⟩ := by
  unfold FileCtrl.deleteFile
  rw [hfind]
  simp [hown]

/-- Witness for C9: requester 3 deleting the attachment owned by user 2. -/
theorem deleteFile_nonowner_frame_witness :
    FileCtrl.deleteFile Fixtures.db1 1 3 none =
      ⟨403, { success := false, message := "파일을 삭제할 권한이 없습니다." }, [],
        Fixtures.db1⟩ :=
  deleteFile_nonowner_frame Fixtures.db1 1 3 Fixtures.file1 none (by decide) (by decide)

/-- C8: every upload whose canonical filename exceeds 255 UTF-8 bytes is
rejected by the file filter, regardless of the declared content type. -/
theorem fileFilter_rejects_long_names (mimetype originalname : String)
    (h : 255 < originalname.utf8ByteSize) :
    ∃ msg, Upload.fileFilter mimetype originalname = .rejected msg := by
  unfold Upload.fileFilter
  split
  · exact ⟨_, rfl⟩
  · rw [if_pos h]
    exact ⟨_, rfl⟩

set_option maxRecDepth 8000 in
/-- Witness for C8: a 256-byte name with an allowed content type is
rejected. -/
theorem fileFilter_rejects_long_names_witness :
    ∃ msg, Upload.fileFilter "image/png" (String.mk (List.replicate 256 'a')) =
      .rejected msg :=
  fileFilter_rejects_long_names "image/png" (String.mk (List.replicate 256 'a'))
    (by decide)

/-- C4: the file filter accepts exactly the (contentType, extension) pairs
of the closed allow-list: a content type outside the allow-list is rejected
with the category-named type error; an allowed content type whose
lower-cased extension is outside its permitted set is rejected with the
type-specific extension error; and (for names within the 255-byte bound)
acceptance holds exactly when the declared type is allowed and the
lower-cased extension belongs to its permitted set. -/
theorem fileFilter_allowlist (mimetype originalname : String) :
    (Upload.ALLOWED_TYPES.lookup mimetype = none →
      Upload.fileFilter mimetype originalname =
        .rejected ("지원하지 않는 " ++ Upload.getFileType mimetype ++ " 형식입니다.")) ∧
    (∀ exts, Upload.ALLOWED_TYPES.lookup mimetype = some exts →
      originalname.utf8ByteSize ≤ 255 →
      Upload.lowerStr (Upload.extnameStr originalname) ∉ exts →
      Upload.fileFilter mimetype originalname =
        .rejected (Upload.getFileType mimetype ++ " 확장자가 올바르지 않습니다.")) ∧
    (originalname.utf8ByteSize ≤ 255 →
      (Upload.fileFilter mimetype originalname = .accepted ↔
        ∃ exts, Upload.ALLOWED_TYPES.lookup mimetype = some exts ∧
          Upload.lowerStr (Upload.extnameStr originalname) ∈ exts)) := by
  refine ⟨?_, ?_, ?_⟩
  · intro hl
    unfold Upload.fileFilter
    rw [hl]
  · intro exts hl hlen hmem
    unfold Upload.fileFilter
    rw [hl]
    have hc : exts.contains (Upload.lowerStr (Upload.extnameStr originalname)) = false := by
      simpa using hmem
    simp only [hc]
    rw [if_neg (by omega)]
    simp
  · intro hlen
    constructor
    · intro hacc
      unfold Upload.fileFilter at hacc
      split at hacc
      · exact absurd hacc (by simp)
      · next exts hl =>
        rw [if_neg (by omega)] at hacc
        simp only [] at hacc
        by_cases hc : exts.contains (Upload.lowerStr (Upload.extnameStr originalname)) = true
        · exact ⟨exts, hl, by simpa using hc⟩
        · rw [if_neg ?_] at hacc
          · exact absurd hacc (by simp)
          · simpa using hc
    · rintro ⟨exts, hl, hmem⟩
      unfold Upload.fileFilter
      rw [hl]
      have hc : exts.contains (Upload.lowerStr (Upload.extnameStr originalname)) = true := by
        simpa using hmem
      simp only [hc]
      rw [if_neg (by omega)]
      simp

/-- Witness for C4: a disallowed content type is rejected with the
category-named type error, a disguised executable under `image/png` is
rejected with the image-specific extension error, and an allowed pair is
accepted. -/
theorem fileFilter_allowlist_witness :
    Upload.fileFilter "application/x-msdownload" "a.exe" =
      .rejected ("지원하지 않는 "
        ++ Upload.getFileType "application/x-msdownload" ++ " 형식입니다.") ∧
    Upload.fileFilter "image/png" "evil.exe" =
      .rejected (Upload.getFileType "image/png" ++ " 확장자가 올바르지 않습니다.") ∧
    Upload.fileFilter "image/png" "photo.PNG" = .accepted :=
  ⟨(fileFilter_allowlist "application/x-msdownload" "a.exe").1 (by decide),
    (fileFilter_allowlist "image/png" "evil.exe").2.1 [".png"]
      (by decide) (by decide) (by decide),
    ((fileFilter_allowlist "image/png" "photo.PNG").2.2 (by decide)).2
      ⟨[".png"], by decide, by decide⟩⟩

/-- C3: for both the download and the view request, the authorization
resolver produces a distinct outcome per failed link, mapped to distinct
HTTP statuses — missing filename 400, missing token or session identifier
401, attachment absent 404, owning message absent 404, requester not a
participant 403 — and only when every link resolves does the request
proceed to signed-URL issuance. -/
theorem downloadFile_error_taxonomy (db : FileCtrl.DB) (req : FileCtrl.FileRequest) :
    (FileCtrl.jsTruthy req.filename = false →
      FileCtrl.downloadFile db req = (.errorResp 400 "잘못된 파일명입니다.", []) ∧
      FileCtrl.viewFile db req = (.errorResp 400 "잘못된 파일명입니다.", [])) ∧
    (FileCtrl.jsTruthy req.filename = true →
      (FileCtrl.jsTruthy req.token = false ∨ FileCtrl.jsTruthy req.sessionId = false) →
      FileCtrl.downloadFile db req = (.errorResp 401 "인증이 필요합니다.", []) ∧
      FileCtrl.viewFile db req = (.errorResp 401 "인증이 필요합니다.", [])) ∧
    (∀ fn, req.filename = some fn → FileCtrl.jsTruthy req.filename = true →
      FileCtrl.jsTruthy req.token = true → FileCtrl.jsTruthy req.sessionId = true →
      FileCtrl.findFileByFilename db fn = none →
      FileCtrl.downloadFile db req = (.errorResp 404 "파일을 찾을 수 없습니다.", []) ∧
      FileCtrl.viewFile db req = (.errorResp 404 "파일을 찾을 수 없습니다.", [])) ∧
    (∀ fn file, req.filename = some fn → FileCtrl.jsTruthy req.filename = true →
      FileCtrl.jsTruthy req.token = true → FileCtrl.jsTruthy req.sessionId = true →
      FileCtrl.findFileByFilename db fn = some file →
      FileCtrl.findMessageByFile db file.id = none →
      FileCtrl.downloadFile db req =
        (.errorResp 404 "파일 메시지를 찾을 수 없습니다.", []) ∧
      FileCtrl.viewFile db req =
        (.errorResp 404 "파일 메시지를 찾을 수 없습니다.", [])) ∧
    (∀ fn file msg, req.filename = some fn → FileCtrl.jsTruthy req.filename = true →
      FileCtrl.jsTruthy req.token = true → FileCtrl.jsTruthy req.sessionId = true →
      FileCtrl.findFileByFilename db fn = some file →
      FileCtrl.findMessageByFile db file.id = some msg →
      FileCtrl.findRoomWithParticipant db msg.room req.userId = none →
      FileCtrl.downloadFile db req =
        (.errorResp 403 "파일에 접근할 권한이 없습니다.", []) ∧
      FileCtrl.viewFile db req =
        (.errorResp 403 "파일에 접근할 권한이 없습니다.", [])) ∧
    (∀ fn file msg room, req.filename = some fn → FileCtrl.jsTruthy req.filename = true →
      FileCtrl.jsTruthy req.token = true → FileCtrl.jsTruthy req.sessionId = true →
      FileCtrl.findFileByFilename db fn = some file →
      FileCtrl.findMessageByFile db file.id = some msg →
      FileCtrl.findRoomWithParticipant db msg.room req.userId = some room →
      FileCtrl.downloadFile db req =
        (.redirect (FileCtrl.signedGetUrl file.path), [.presignGet file.path]) ∧
      (FileCtrl.isPreviewable file = true →
        FileCtrl.viewFile db req =
          (.redirect (FileCtrl.signedGetUrl file.path), [.presignGet file.path]))) := by
  refine ⟨?_, ?_, ?_, ?_, ?_, ?_⟩
  · intro h
    have hg : FileCtrl.getFileFromRequest db req = .error "Invalid filename" := by
      unfold FileCtrl.getFileFromRequest
      rw [if_pos (by simp [h])]
    refine ⟨?_, ?_⟩
    · unfold FileCtrl.downloadFile
      rw [hg]
      rfl
    · unfold FileCtrl.viewFile
      rw [hg]
      rfl
  · intro h1 h2
    have hg : FileCtrl.getFileFromRequest db req = .error "Authentication required" := by
      unfold FileCtrl.getFileFromRequest
      rw [if_neg (by simp [h1]), if_pos (by rcases h2 with h2 | h2 <;> simp [h2])]
    refine ⟨?_, ?_⟩
    · unfold FileCtrl.downloadFile
      rw [hg]
      rfl
    · unfold FileCtrl.viewFile
      rw [hg]
      rfl
  · intro fn hfn h1 ht hs hfind
    have hg : FileCtrl.getFileFromRequest db req = .error "File not found in database" := by
      unfold FileCtrl.getFileFromRequest
      rw [if_neg (by simp [h1]), if_neg (by simp [ht, hs]), hfn]
      simp only [Option.getD_some]
      rw [hfind]
    refine ⟨?_, ?_⟩
    · unfold FileCtrl.downloadFile
      rw [hg]
      rfl
    · unfold FileCtrl.viewFile
      rw [hg]
      rfl
  · intro fn file hfn h1 ht hs hfind hmsg
    have hg : FileCtrl.getFileFromRequest db req = .error "File message not found" := by
      unfold FileCtrl.getFileFromRequest
      rw [if_neg (by simp [h1]), if_neg (by simp [ht, hs]), hfn]
      simp only [Option.getD_some]
      rw [hfind]
      simp only []
      rw [hmsg]
    refine ⟨?_, ?_⟩
    · unfold FileCtrl.downloadFile
      rw [hg]
      rfl
    · unfold FileCtrl.viewFile
      rw [hg]
      rfl
  · intro fn file msg hfn h1 ht hs hfind hmsg hroom
    have hg : FileCtrl.getFileFromRequest db req = .error "Unauthorized access" := by
      unfold FileCtrl.getFileFromRequest
      rw [if_neg (by simp [h1]), if_neg (by simp [ht, hs]), hfn]
      simp only [Option.getD_some]
      rw [hfind]
      simp only []
      rw [hmsg]
      simp only []
      rw [hroom]
    refine ⟨?_, ?_⟩
    · unfold FileCtrl.downloadFile
      rw [hg]
      rfl
    · unfold FileCtrl.viewFile
      rw [hg]
      rfl
  · intro fn file msg room hfn h1 ht hs hfind hmsg hroom
    have hg : FileCtrl.getFileFromRequest db req = .ok file := by
      unfold FileCtrl.getFileFromRequest
      rw [if_neg (by simp [h1]), if_neg (by simp [ht, hs]), hfn]
      simp only [Option.getD_some]
      rw [hfind]
      simp only []
      rw [hmsg]
      simp only []
      rw [hroom]
    refine ⟨?_, ?_⟩
    · unfold FileCtrl.downloadFile
      rw [hg]
    · intro hprev
      unfold FileCtrl.viewFile
      rw [hg]
      simp [hprev]

/-- Witness for C3: each failed link at a concrete catalog produces the
claimed status on both the download and the view path, and the fully
resolving request redirects to the signed URL on both. -/
theorem downloadFile_error_taxonomy_witness :
    FileCtrl.downloadFile Fixtures.db1
        { filename := none, token := some "t", sessionId := some "s", userId := 3 } =
      (.errorResp 400 "잘못된 파일명입니다.", []) ∧
    FileCtrl.viewFile Fixtures.db1
        { filename := none, token := some "t", sessionId := some "s", userId := 3 } =
      (.errorResp 400 "잘못된 파일명입니다.", []) ∧
    FileCtrl.downloadFile Fixtures.db1
        { filename := some "1700000000000_00112233aabbccdd.png", token := none,
          sessionId := some "s", userId := 3 } =
      (.errorResp 401 "인증이 필요합니다.", []) ∧
    FileCtrl.downloadFile Fixtures.db1
        { filename := some "nosuch.png", token := some "t", sessionId := some "s",
          userId := 3 } =
      (.errorResp 404 "파일을 찾을 수 없습니다.", []) ∧
    FileCtrl.downloadFile
        { files := [Fixtures.file1], messages := [], rooms := [Fixtures.room1] }
        Fixtures.okReq =
      (.errorResp 404 "파일 메시지를 찾을 수 없습니다.", []) ∧
    FileCtrl.viewFile Fixtures.db1 { Fixtures.okReq with userId := 9 } =
      (.errorResp 403 "파일에 접근할 권한이 없습니다.", []) ∧
    FileCtrl.downloadFile Fixtures.db1 Fixtures.okReq =
      (.redirect (FileCtrl.signedGetUrl Fixtures.file1.path),
        [.presignGet Fixtures.file1.path]) ∧
    FileCtrl.viewFile Fixtures.db1 Fixtures.okReq =
      (.redirect (FileCtrl.signedGetUrl Fixtures.file1.path),
        [.presignGet Fixtures.file1.path]) :=
  ⟨((downloadFile_error_taxonomy _ _).1 (by decide)).1,
    ((downloadFile_error_taxonomy _ _).1 (by decide)).2,
    ((downloadFile_error_taxonomy _ _).2.1 (by decide) (Or.inl (by decide))).1,
    ((downloadFile_error_taxonomy _ _).2.2.1 "nosuch.png" (by decide) (by decide)
      (by decide) (by decide) (by decide)).1,
    ((downloadFile_error_taxonomy _ _).2.2.2.1 "1700000000000_00112233aabbccdd.png"
      Fixtures.file1 (by decide) (by decide) (by decide) (by decide) (by decide)
      (by decide)).1,
    ((downloadFile_error_taxonomy _ _).2.2.2.2.1 "1700000000000_00112233aabbccdd.png"
      Fixtures.file1 Fixtures.msg1 (by decide) (by decide) (by decide) (by decide)
      (by decide) (by decide) (by decide)).2,
    ((downloadFile_error_taxonomy _ _).2.2.2.2.2 "1700000000000_00112233aabbccdd.png"
      Fixtures.file1 Fixtures.msg1 Fixtures.room1 (by decide) (by decide) (by decide)
      (by decide) (by decide) (by decide) (by decide)).1,
    ((downloadFile_error_taxonomy _ _).2.2.2.2.2 "1700000000000_00112233aabbccdd.png"
      Fixtures.file1 Fixtures.msg1 Fixtures.room1 (by decide) (by decide) (by decide)
      (by decide) (by decide) (by decide) (by decide)).2 (by decide)⟩

/-- Every nibble renders to a character of the hex alphabet. -/
theorem hexChar_mem_hexdigits (n : Nat) (h : n < 16) :
    Upload.hexChar n ∈ "0123456789abcdef".toList := by
  interval_cases n <;> decide

/-- `bytesToHex` renders two characters per byte. -/
theorem bytesToHex_length (bs : List Nat) :
    (Upload.bytesToHex bs).length = 2 * bs.length := by
  unfold Upload.bytesToHex
  show ((bs.map Upload.byteToHex).flatten).length = 2 * bs.length
  induction bs with
  | nil => rfl
  | cons b rest ih =>
    simp only [List.map_cons, List.flatten_cons, List.length_append, List.length_cons, ih]
    have hb : (Upload.byteToHex b).length = 2 := rfl
    omega

/-- Every character `bytesToHex` renders for bytes is a hex character. -/
theorem bytesToHex_chars (bs : List Nat) (h : ∀ b ∈ bs, b < 256) :
    ∀ c ∈ (Upload.bytesToHex bs).toList, c ∈ "0123456789abcdef".toList := by
  intro c hc
  have hc2 : c ∈ (bs.map Upload.byteToHex).flatten := by
    simpa [Upload.bytesToHex, String.toList] using hc
  rw [List.mem_flatten] at hc2
  obtain ⟨l, hl, hcl⟩ := hc2
  rw [List.mem_map] at hl
  obtain ⟨b, hb, rfl⟩ := hl
  have hblt := h b hb
  simp only [Upload.byteToHex, List.mem_cons, List.not_mem_nil, or_false] at hcl
  rcases hcl with rfl | rfl
  · exact hexChar_mem_hexdigits _ (by omega)
  · exact hexChar_mem_hexdigits _ (by omega)

/-- Appending to the safe root always satisfies the prefix check. -/
theorem isPathSafe_of_append (r : String) :
    Upload.isPathSafe ("uploads/" ++ r) = true := by
  unfold Upload.isPathSafe
  have h : ("uploads/" ++ r).toList = "uploads/".toList ++ r.toList := by
    simp [String.toList, String.data_append]
  rw [h]
  simp [List.isPrefixOf_iff_prefix]

/-- C6: for every input filename whose lower-cased extension is in the
allow-list, the generated storage key begins with the fixed safe prefix
`uploads/` and has the form
`<millisecond-timestamp>_<16 hexadecimal characters><lower-cased extension
of the canonical filename>`. -/
theorem s3Key_shape (originalname : String) (timestamp : Nat)
    (randomBytes : List Nat) (hlen : randomBytes.length = 8)
    (hbytes : ∀ b ∈ randomBytes, b < 256)
    (hext : Upload.lowerStr (Upload.extnameStr originalname) ∈ Upload.allowedExtensions) :
    Upload.s3Key originalname timestamp randomBytes =
      .ok ("uploads/" ++ (toString timestamp ++ "_" ++ Upload.bytesToHex randomBytes
        ++ Upload.lowerStr (Upload.extnameStr originalname))) ∧
    Upload.isPathSafe ("uploads/" ++ (toString timestamp ++ "_"
      ++ Upload.bytesToHex randomBytes
      ++ Upload.lowerStr (Upload.extnameStr originalname))) = true ∧
    (Upload.bytesToHex randomBytes).length = 16 ∧
    ∀ c ∈ (Upload.bytesToHex randomBytes).toList, c ∈ "0123456789abcdef".toList := by
  refine ⟨?_, isPathSafe_of_append _, ?_, bytesToHex_chars randomBytes hbytes⟩
  · unfold Upload.s3Key
    rw [if_pos (by simpa using hext)]
  · rw [bytesToHex_length, hlen]

/-- Witness for C6: the key generated for `photo.PNG` at a concrete
timestamp and concrete random bytes. -/
theorem s3Key_shape_witness :
    Upload.s3Key "photo.PNG" 1700000000000 [0, 17, 34, 51, 170, 187, 204, 221] =
      .ok ("uploads/" ++ (toString 1700000000000 ++ "_"
        ++ Upload.bytesToHex [0, 17, 34, 51, 170, 187, 204, 221]
        ++ Upload.lowerStr (Upload.extnameStr "photo.PNG"))) ∧
    Upload.isPathSafe ("uploads/" ++ (toString 1700000000000 ++ "_"
      ++ Upload.bytesToHex [0, 17, 34, 51, 170, 187, 204, 221]
      ++ Upload.lowerStr (Upload.extnameStr "photo.PNG"))) = true ∧
    (Upload.bytesToHex [0, 17, 34, 51, 170, 187, 204, 221]).length = 16 ∧
    ∀ c ∈ (Upload.bytesToHex [0, 17, 34, 51, 170, 187, 204, 221]).toList,
      c ∈ "0123456789abcdef".toList :=
  s3Key_shape "photo.PNG" 1700000000000 [0, 17, 34, 51, 170, 187, 204, 221]
    (by decide) (by decide) (by decide)

/-- C5: per-category size limits and the absolute 50MB ceiling both apply
to every upload, the more restrictive governing: an 11MB image is rejected
with a message naming the image category and the 10MB limit, a 21MB
document with one naming the document category and the 20MB limit, any
file over 50MB is rejected by the absolute cap, and acceptance holds
exactly when the size is within both the category limit and the ceiling. -/
theorem uploadSizeCheck_policy :
    Pipeline.uploadSizeCheck "image/png" (11 * 1024 * 1024) =
      .error (.category "이미지 파일은 10MB를 초과할 수 없습니다.") ∧
    Pipeline.uploadSizeCheck "application/pdf" (21 * 1024 * 1024) =
      .error (.category "문서 파일은 20MB를 초과할 수 없습니다.") ∧
    (∀ mimetype size, size > 50 * 1024 * 1024 →
      Pipeline.uploadSizeCheck mimetype size = .error .absoluteCap) ∧
    (∀ mimetype size,
      Pipeline.uploadSizeCheck mimetype size = .ok () ↔
        size ≤ min (Pipeline.categoryLimit mimetype) Upload.MULTER_FILE_SIZE) := by
  refine ⟨by rfl, by rfl, ?_, ?_⟩
  · intro mimetype size h
    unfold Pipeline.uploadSizeCheck
    rw [if_pos (by exact h)]
  · intro mimetype size
    unfold Pipeline.uploadSizeCheck Upload.validateFileSize
    rw [Nat.le_min]
    by_cases h1 : size > Upload.MULTER_FILE_SIZE
    · rw [if_pos h1]
      constructor
      · intro h; exact absurd h (by simp)
      · intro h; omega
    · rw [if_neg h1]
      by_cases h2 : size > Pipeline.categoryLimit mimetype
      · rw [if_pos (by exact h2)]
        constructor
        · intro h; exact absurd h (by simp)
        · intro h; exact absurd h2 (by omega)
      · rw [if_neg (by exact h2)]
        constructor
        · intro _; omega
        · intro _; rfl

/-- Witness for C5: a 51MB video is caught by the absolute cap, and a 9MB
image is accepted by both limits. -/
theorem uploadSizeCheck_policy_witness :
    Pipeline.uploadSizeCheck "video/mp4" (51 * 1024 * 1024) = .error .absoluteCap ∧
    Pipeline.uploadSizeCheck "image/png" (9 * 1024 * 1024) = .ok () :=
  ⟨uploadSizeCheck_policy.2.2.1 "video/mp4" (51 * 1024 * 1024) (by norm_num),
    (uploadSizeCheck_policy.2.2.2 "image/png" (9 * 1024 * 1024)).2 (by decide)⟩

/-- C1 counterexample: on a catalog row whose stored key does not begin
with the safe prefix `uploads/`, the download path still issues the
presign network call to the store for that key — the operation is not
refused before the network call, contradicting the claim for the download
path. -/
theorem downloadFile_presigns_unsafe_key :
    Upload.isPathSafe "secret/passwd.png" = false ∧
    FileCtrl.downloadFile Fixtures.evilDB Fixtures.okReq =
      (.redirect (FileCtrl.signedGetUrl "secret/passwd.png"),
        [.presignGet "secret/passwd.png"]) :=
  ⟨by decide, by rfl⟩

/-- C1 amended: only the helper `deleteFromS3` enforces the safe-prefix
check — for every key failing the check it makes no store call — while the
download path issues the presign call for the resolved attachment's stored
key, the view path issues it for every resolved previewable attachment's
stored key, and the owner attachment-delete path issues the store delete
for the attachment's stored key, all without any prefix check. -/
theorem safeRootGate_only_in_deleteFromS3 (key : String) (storeErr : Option String)
    (db : FileCtrl.DB) (req : FileCtrl.FileRequest) (file : FileCtrl.FileRec) :
    (Upload.isPathSafe key = false →
      (Upload.deleteFromS3 key storeErr).storeCalled = false) ∧
    (FileCtrl.getFileFromRequest db req = .ok file →
      (FileCtrl.downloadFile db req).2 = [.presignGet file.path]) ∧
    (FileCtrl.getFileFromRequest db req = .ok file →
      FileCtrl.isPreviewable file = true →
      (FileCtrl.viewFile db req).2 = [.presignGet file.path]) ∧
    (∀ fid uid sErr, FileCtrl.findFileById db fid = some file → file.user = uid →
      (FileCtrl.deleteFile db fid uid sErr).effects = [.deleteObj file.path]) := by
  refine ⟨?_, ?_, ?_, ?_⟩
  · intro h
    unfold Upload.deleteFromS3
    simp [h]
  · intro hg
    unfold FileCtrl.downloadFile
    rw [hg]
  · intro hg hprev
    unfold FileCtrl.viewFile
    rw [hg]
    simp [hprev]
  · intro fid uid sErr hfind hown
    unfold FileCtrl.deleteFile
    rw [hfind]
    simp only []
    rw [if_neg (by simp [hown])]
    cases sErr <;> rfl

/-- Witness for the amended C1 at the concrete unsafe key and catalog. -/
theorem safeRootGate_only_in_deleteFromS3_witness :
    (Upload.deleteFromS3 "secret/passwd.png" none).storeCalled = false ∧
    (FileCtrl.downloadFile Fixtures.evilDB Fixtures.okReq).2 =
      [.presignGet Fixtures.evilFile.path] ∧
    (FileCtrl.viewFile Fixtures.evilDB Fixtures.okReq).2 =
      [.presignGet Fixtures.evilFile.path] ∧
    (FileCtrl.deleteFile Fixtures.evilDB 1 2 none).effects =
      [.deleteObj Fixtures.evilFile.path] :=
  ⟨(safeRootGate_only_in_deleteFromS3 "secret/passwd.png" none Fixtures.evilDB
      Fixtures.okReq Fixtures.evilFile).1 (by decide),
    (safeRootGate_only_in_deleteFromS3 "secret/passwd.png" none Fixtures.evilDB
      Fixtures.okReq Fixtures.evilFile).2.1 (by rfl),
    (safeRootGate_only_in_deleteFromS3 "secret/passwd.png" none Fixtures.evilDB
      Fixtures.okReq Fixtures.evilFile).2.2.1 (by rfl) (by decide),
    (safeRootGate_only_in_deleteFromS3 "secret/passwd.png" none Fixtures.evilDB
      Fixtures.okReq Fixtures.evilFile).2.2.2 1 2 none (by rfl) (by rfl)⟩

/-- C2 counterexample: for an owner-initiated attachment delete, a failing
store delete becomes the primary failure of the operation — the handler
answers 500 carrying the store error and the catalog record is NOT
removed — contradicting the claim for the attachment-delete operation. -/
theorem deleteFile_store_failure_primary :
    FileCtrl.deleteFile Fixtures.db1 1 2 (some "S3 unavailable") =
      ⟨500, { success := false, message := "파일 삭제 중 오류가 발생했습니다.",
              error := some "S3 unavailable" },
        [.deleteObj Fixtures.file1.path], Fixtures.db1⟩ := by
  rfl

/-- C2 amended: store-delete failures are non-fatal for profile-image
replacement, profile-image deletion and account deletion — each proceeds
with its catalog mutation and reports success regardless of the
store-delete outcome — but for the owner-initiated attachment delete a
store-delete failure becomes the primary failure: the handler answers 500
and the catalog record is retained. -/
theorem storeDelete_bestEffort_except_attachment
    (users : List UserCtrl.UserRec) (uid : Nat) (user : UserCtrl.UserRec)
    (img bucket : String) (himg : img ≠ "")
    (hfind : UserCtrl.findUserById users uid = some user) :
    (∀ sf, UserCtrl.deleteAccount users uid sf =
      ⟨200, { success := true, message := "회원 탈퇴가 완료되었습니다." },
        (if user.profileImage ≠ "" then
          [.deleteObj (UserCtrl.profileImageKey user.profileImage)] else []),
        users.filter (fun u => u.id ≠ uid)⟩) ∧
    (∀ sf, (UserCtrl.deleteProfileImage users uid sf).status = 200 ∧
      (UserCtrl.deleteProfileImage users uid sf).body.success = true) ∧
    (∀ sf, (UserCtrl.uploadProfileImage users uid (some img) bucket sf).status = 200 ∧
      (UserCtrl.uploadProfileImage users uid (some img) bucket sf).users =
        users.map (fun u => if u.id = uid then
          { u with profileImage := "https://" ++ bucket
              ++ ".s3.ap-northeast-2.amazonaws.com/" ++ img } else u)) ∧
    (∀ db fid uid2 file m, FileCtrl.findFileById db fid = some file →
      file.user = uid2 →
      (FileCtrl.deleteFile db fid uid2 (some m)).status = 500 ∧
      (FileCtrl.deleteFile db fid uid2 (some m)).db = db) := by
  refine ⟨?_, ?_, ?_, ?_⟩
  · intro sf
    unfold UserCtrl.deleteAccount
    rw [hfind]
  · intro sf
    unfold UserCtrl.deleteProfileImage
    rw [hfind]
    simp only []
    split <;> exact ⟨rfl, rfl⟩
  · intro sf
    unfold UserCtrl.uploadProfileImage
    rw [if_neg (by simp [FileCtrl.jsTruthy, himg])]
    rw [hfind]
    exact ⟨rfl, rfl⟩
  · intro db fid uid2 file m hfind2 hown
    unfold FileCtrl.deleteFile
    rw [hfind2]
    simp only []
    rw [if_neg (by simp [hown])]
    exact ⟨rfl, rfl⟩

/-- Witness for the amended C2 at a concrete user table and catalog. -/
theorem storeDelete_bestEffort_witness :
    (UserCtrl.deleteAccount Fixtures.users1 7 true).status = 200 ∧
    (UserCtrl.deleteProfileImage Fixtures.users1 7 true).status = 200 ∧
    (UserCtrl.uploadProfileImage Fixtures.users1 7 (some "uploads/new.png") "b"
      true).status = 200 ∧
    (FileCtrl.deleteFile Fixtures.db1 1 2 (some "boom")).status = 500 ∧
    (FileCtrl.deleteFile Fixtures.db1 1 2 (some "boom")).db = Fixtures.db1 :=
  ⟨by rw [(storeDelete_bestEffort_except_attachment Fixtures.users1 7 Fixtures.user1
      "uploads/new.png" "b" (by decide) (by rfl)).1 true],
    ((storeDelete_bestEffort_except_attachment Fixtures.users1 7 Fixtures.user1
      "uploads/new.png" "b" (by decide) (by rfl)).2.1 true).1,
    ((storeDelete_bestEffort_except_attachment Fixtures.users1 7 Fixtures.user1
      "uploads/new.png" "b" (by decide) (by rfl)).2.2.1 true).1,
    ((storeDelete_bestEffort_except_attachment Fixtures.users1 7 Fixtures.user1
      "uploads/new.png" "b" (by decide) (by rfl)).2.2.2 Fixtures.db1 1 2 Fixtures.file1 "boom"
      (by rfl) (by rfl)).1,
    ((storeDelete_bestEffort_except_attachment Fixtures.users1 7 Fixtures.user1
      "uploads/new.png" "b" (by decide) (by rfl)).2.2.2 Fixtures.db1 1 2 Fixtures.file1 "boom"
      (by rfl) (by rfl)).2⟩

/-- C7 counterexample: the upload failure path returns the raw internal
error message inside the response body's `error` field — internal error
detail is returned to the client, not only logged — contradicting the
claim. -/
theorem uploadFile_returns_internal_error :
    FileCtrl.uploadFile (some Fixtures.uploaded1) (some "MongoError: connection lost") =
      (500, { success := false, message := "파일 업로드 중 오류가 발생했습니다.",
              error := some "MongoError: connection lost" }) := by
  rfl

/-- Every message `handleFileError` produces is drawn from its fixed
table. -/
theorem handleFileError_msg_mem (emsg : String) :
    (FileCtrl.handleFileError emsg).2 ∈ FileCtrl.fixedFileErrorMessages := by
  unfold FileCtrl.handleFileError FileCtrl.fixedFileErrorMessages
  repeat' split
  all_goals simp

/-- C7 amended: error responses carry a success flag and a fixed human
message but no separate machine-readable reason field; every download
error response returns only a message drawn from the fixed table of
`handleFileError`, every view error response only such a message or the
fixed unsupported-preview message (internal detail is logged, never
returned on those paths), while the upload and attachment-delete 500 paths
include the raw internal error message in the body's `error` field. -/
theorem errorBody_contents (f : FileCtrl.UploadedFile) (m : String) :
    (FileCtrl.uploadFile (some f) (some m)).2.error = some m ∧
    (∀ db fid uid file, FileCtrl.findFileById db fid = some file →
      file.user = uid →
      (FileCtrl.deleteFile db fid uid (some m)).body.error = some m) ∧
    (∀ emsg, (FileCtrl.handleFileError emsg).2 ∈ FileCtrl.fixedFileErrorMessages) ∧
    (∀ db req st emsg2, (FileCtrl.downloadFile db req).1 = .errorResp st emsg2 →
      emsg2 ∈ FileCtrl.fixedFileErrorMessages) ∧
    (∀ db req st emsg2, (FileCtrl.viewFile db req).1 = .errorResp st emsg2 →
      emsg2 ∈ "미리보기를 지원하지 않는 파일 형식입니다." :: FileCtrl.fixedFileErrorMessages) := by
  refine ⟨rfl, ?_, handleFileError_msg_mem, ?_, ?_⟩
  · intro db fid uid file hfind hown
    unfold FileCtrl.deleteFile
    rw [hfind]
    simp only []
    rw [if_neg (by simp [hown])]
  · intro db req st emsg2 h
    unfold FileCtrl.downloadFile at h
    cases hg : FileCtrl.getFileFromRequest db req with
    | ok file =>
      rw [hg] at h
      exact absurd h (by simp)
    | error emsg =>
      rw [hg] at h
      simp only [] at h
      have hmem := handleFileError_msg_mem emsg
      rcases hh : FileCtrl.handleFileError emsg with ⟨st2, m2⟩
      rw [hh] at h
      rw [hh] at hmem
      simp only [] at h
      simp only [] at hmem
      simp only [FileCtrl.Response.errorResp.injEq] at h
      rw [← h.2]
      exact hmem
  · intro db req st emsg2 h
    unfold FileCtrl.viewFile at h
    cases hg : FileCtrl.getFileFromRequest db req with
    | ok file =>
      rw [hg] at h
      simp only [] at h
      by_cases hp : FileCtrl.isPreviewable file = true
      · rw [if_neg (by simp [hp])] at h
        exact absurd h (by simp)
      · rw [if_pos (by simpa using hp)] at h
        simp only [FileCtrl.Response.errorResp.injEq] at h
        rw [← h.2]
        simp
    | error emsg =>
      rw [hg] at h
      simp only [] at h
      have hmem := handleFileError_msg_mem emsg
      rcases hh : FileCtrl.handleFileError emsg with ⟨st2, m2⟩
      rw [hh] at h
      rw [hh] at hmem
      simp only [] at h
      simp only [] at hmem
      simp only [FileCtrl.Response.errorResp.injEq] at h
      rw [← h.2]
      exact List.mem_cons_of_mem _ hmem

/-- Witness for the amended C7 at concrete inputs: the upload and delete
500 bodies carry the raw message, an unknown internal error maps into the
fixed table, a concrete failed download returns a table message, and a
concrete view of a non-previewable file returns the 415 message. -/
theorem errorBody_contents_witness :
    (FileCtrl.uploadFile (some Fixtures.uploaded1) (some "db down")).2.error =
      some "db down" ∧
    (FileCtrl.deleteFile Fixtures.db1 1 2 (some "db down")).body.error =
      some "db down" ∧
    (FileCtrl.handleFileError "ECONNRESET").2 ∈ FileCtrl.fixedFileErrorMessages ∧
    "파일에 접근할 권한이 없습니다." ∈ FileCtrl.fixedFileErrorMessages ∧
    "미리보기를 지원하지 않는 파일 형식입니다." ∈
      "미리보기를 지원하지 않는 파일 형식입니다." :: FileCtrl.fixedFileErrorMessages :=
  ⟨(errorBody_contents Fixtures.uploaded1 "db down").1,
    (errorBody_contents Fixtures.uploaded1 "db down").2.1 Fixtures.db1 1 2
      Fixtures.file1 (by rfl) (by rfl),
    (errorBody_contents Fixtures.uploaded1 "db down").2.2.1 "ECONNRESET",
    (errorBody_contents Fixtures.uploaded1 "db down").2.2.2.1 Fixtures.db1
      { Fixtures.okReq with userId := 9 } 403 "파일에 접근할 권한이 없습니다." (by rfl),
    (errorBody_contents Fixtures.uploaded1 "db down").2.2.2.2 Fixtures.docDB
      Fixtures.okReq 415 "미리보기를 지원하지 않는 파일 형식입니다." (by rfl)⟩
